import Mathlib

/-!
Shallow embedding of `python/tank/util/metrics.py` (tk-core metrics module):
the metrics FIFO queue singleton, the dispatcher lifecycle, the worker halt
protocol, and the `EventMetric` producer API.

The queue state of `MetricsQueueSingleton` is the pair of its `_queue` deque
(a `List` here, head at the front) and the class-level `__logged_metrics` set
of identity strings (a `List String` used as a set).  The singleton's lock
only serialises calls; in this sequential model each operation is a function
on the state.  The queue is generic in the metric type `M` together with the
identity function `ident` standing for Python's `repr`.
-/

structure QState (M : Type) where
  queue : List M
  logged_metrics : List String

namespace MetricsQueueSingleton

/-- Fresh singleton state: `_queue = deque()`, `__logged_metrics = set()`. -/
def initState (M : Type) : QState M := ⟨[], []⟩

/-- Embedding of `MetricsQueueSingleton.log(metric, log_once)`:
compute `repr(metric)`; if `log_once` and the identifier was seen, return
unchanged; otherwise append the metric to the tail and add the identifier
to the seen set.  (The `try/except: pass` around the mutation cannot fire:
`deque.append` and `set.add` are total.) -/
def log {M : Type} (ident : M → String) (st : QState M) (metric : M)
    (log_once : Bool) : QState M :=
  let metric_identifier := ident metric
  if log_once ∧ metric_identifier ∈ st.logged_metrics then
    st
  else
    { queue := st.queue ++ [metric]
      logged_metrics := st.logged_metrics.insert metric_identifier }

/-- The clamped pop count computed by `get_metrics`: Python's
`if not count or count > num_pending: count = num_pending` where
`not count` is true for `None` and for `0`. -/
def clampCount (num_pending : Int) (count : Option Int) : Int :=
  match count with
  | Option.none => num_pending
  | Option.some k => if k = 0 ∨ num_pending < k then num_pending else k

/-- Embedding of `MetricsQueueSingleton.get_metrics(count)` as the total
function it is: when the queue is non-empty, pop `clampCount` items from the
head (`range(0, count)` pops nothing for a negative count, hence `Int.toNat`);
otherwise return no metrics and leave the state alone. -/
def get_metrics {M : Type} (st : QState M) (count : Option Int) :
    List M × QState M :=
  let num_pending : Int := st.queue.length
  if num_pending = 0 then
    ([], st)
  else
    let c := clampCount num_pending count
    (st.queue.take c.toNat, { st with queue := st.queue.drop c.toNat })

/-- Fallible left-pop iterated `n` times, the meaning of
`[self._queue.popleft() for i in range(0, count)]` where `popleft` raises
`IndexError` on an empty deque. -/
def popleftN {M : Type} : Nat → List M → Except Unit (List M × List M)
  | 0, q => Except.ok ([], q)
  | n + 1, q =>
    match q with
    | [] => Except.error ()
    | x :: xs =>
      match popleftN n xs with
      | Except.error e => Except.error e
      | Except.ok (ms, q') => Except.ok (x :: ms, q')

/-- The body of `get_metrics` inside its `try`, with the pops kept fallible:
an `Except.error` result stands for an exception reaching the bare `except`
clause.  The theorems show the error branch is unreachable. -/
def get_metricsE {M : Type} (st : QState M) (count : Option Int) :
    Except Unit (List M × QState M) :=
  let num_pending : Int := st.queue.length
  if num_pending = 0 then
    Except.ok ([], st)
  else
    let c := clampCount num_pending count
    match popleftN c.toNat st.queue with
    | Except.error e => Except.error e
    | Except.ok (ms, q') => Except.ok (ms, { st with queue := q' })

/-- A queue operation: a producer `log` call or a worker `get_metrics` call. -/
inductive Op (M : Type) where
  | enqueue (metric : M) (log_once : Bool)
  | drain (count : Option Int)

/-- One queue operation acting on the state. -/
def step {M : Type} (ident : M → String) (st : QState M) : Op M → QState M
  | Op.enqueue m b => log ident st m b
  | Op.drain c => (get_metrics st c).2

/-- A sequence of queue operations acting on the state. -/
def run {M : Type} (ident : M → String) (st : QState M) (ops : List (Op M)) :
    QState M :=
  ops.foldl (step ident) st

/-- A sequence of producer calls acting on the state. -/
def runLog {M : Type} (ident : M → String) (st : QState M)
    (calls : List (M × Bool)) : QState M :=
  calls.foldl (fun s c => log ident s c.1 c.2) st

theorem ident_mem_log {M : Type} (ident : M → String) (st : QState M)
    (m : M) (b : Bool) : ident m ∈ (log ident st m b).logged_metrics := by
  simp only [log]
  split
  · next h => exact h.2
  · exact List.mem_insert_self _ _

theorem logged_subset_log {M : Type} (ident : M → String) (st : QState M)
    (m : M) (b : Bool) :
    st.logged_metrics ⊆ (log ident st m b).logged_metrics := by
  simp only [log]
  split
  · exact fun _ h => h
  · exact fun x hx => List.mem_insert_of_mem hx

theorem logged_get_metrics {M : Type} (st : QState M) (count : Option Int) :
    (get_metrics st count).2.logged_metrics = st.logged_metrics := by
  simp only [get_metrics]
  split <;> rfl

theorem log_of_seen {M : Type} (ident : M → String) (st : QState M) (m : M)
    (h : ident m ∈ st.logged_metrics) : log ident st m true = st := by
  simp only [log]
  rw [if_pos]
  exact ⟨trivial, h⟩

theorem log_not_once {M : Type} (ident : M → String) (st : QState M) (m : M) :
    log ident st m false =
      { queue := st.queue ++ [m]
        logged_metrics := st.logged_metrics.insert (ident m) } := by
  simp only [log]
  rw [if_neg]
  intro h
  exact Bool.false_ne_true h.1

theorem get_metrics_none {M : Type} (st : QState M) :
    get_metrics st Option.none = (st.queue, ⟨[], st.logged_metrics⟩) := by
  simp only [get_metrics, clampCount]
  split
  · next h =>
    have hq : st.queue = [] := by
      cases hq : st.queue with
      | nil => rfl
      | cons a l =>
        exfalso
        rw [hq] at h
        simp only [List.length_cons] at h
        omega
    cases st with
    | mk q lg =>
      simp only at hq
      subst hq
      rfl
  · simp

theorem popleftN_ok {M : Type} :
    ∀ (n : Nat) (q : List M), n ≤ q.length →
      popleftN n q = Except.ok (q.take n, q.drop n) := by
  intro n
  induction n with
  | zero => intro q _; simp [popleftN]
  | succ k ih =>
    intro q hq
    cases q with
    | nil => simp at hq
    | cons x xs =>
      simp only [popleftN]
      rw [ih xs (by simpa using hq)]
      simp

theorem clampCount_toNat_le (n : Nat) (count : Option Int) :
    (clampCount (n : Int) count).toNat ≤ n := by
  unfold clampCount
  cases count with
  | none => simp
  | some k => split <;> omega

theorem get_metricsE_ok {M : Type} (st : QState M) (count : Option Int) :
    get_metricsE st count = Except.ok (get_metrics st count) := by
  simp only [get_metricsE, get_metrics]
  split
  · rfl
  · have hb : (clampCount (st.queue.length : Int) count).toNat ≤ st.queue.length :=
      clampCount_toNat_le st.queue.length count
    rw [popleftN_ok _ _ hb]

theorem runLog_cons {M : Type} (ident : M → String) (st : QState M)
    (c : M × Bool) (calls : List (M × Bool)) :
    runLog ident st (c :: calls) = runLog ident (log ident st c.1 c.2) calls :=
  rfl

theorem runLog_queue_flags_false {M : Type} (ident : M → String) :
    ∀ (calls : List (M × Bool)) (st : QState M),
      (∀ c ∈ calls, c.2 = false) →
      (runLog ident st calls).queue = st.queue ++ calls.map Prod.fst := by
  intro calls
  induction calls with
  | nil => intro st _; simp [runLog]
  | cons c cs ih =>
    intro st h
    have hc : c.2 = false := h c (List.mem_cons_self _ _)
    rw [runLog_cons, ih _ (fun d hd => h d (List.mem_cons_of_mem _ hd)), hc,
      log_not_once]
    simp

theorem runLog_queue_fresh {M : Type} (ident : M → String) :
    ∀ (calls : List (M × Bool)) (st : QState M),
      (calls.map fun c => ident c.1).Nodup →
      (∀ c ∈ calls, ident c.1 ∉ st.logged_metrics) →
      (runLog ident st calls).queue = st.queue ++ calls.map Prod.fst := by
  intro calls
  induction calls with
  | nil => intro st _ _; simp [runLog]
  | cons c cs ih =>
    intro st hnd hfresh
    have hmap : (List.map (fun c => ident c.1) (c :: cs)) =
        ident c.1 :: cs.map fun d => ident d.1 := rfl
    rw [hmap] at hnd
    have hnd' := List.nodup_cons.mp hnd
    have hlog : log ident st c.1 c.2 =
        { queue := st.queue ++ [c.1]
          logged_metrics := st.logged_metrics.insert (ident c.1) } := by
      simp only [log]
      rw [if_neg]
      intro hcond
      exact hfresh c (List.mem_cons_self _ _) hcond.2
    rw [runLog_cons, hlog, ih _ hnd'.2 ?fresh]
    · simp
    case fresh =>
      intro d hd
      rw [List.mem_insert_iff]
      push_neg
      constructor
      · intro heq
        exact hnd'.1 (heq ▸ List.mem_map_of_mem (fun e => ident e.1) hd)
      · exact hfresh d (List.mem_cons_of_mem _ hd)

theorem logged_subset_step {M : Type} (ident : M → String) (st : QState M)
    (op : Op M) : st.logged_metrics ⊆ (step ident st op).logged_metrics := by
  cases op with
  | enqueue m b => exact logged_subset_log ident st m b
  | drain c =>
    simp only [step]
    rw [logged_get_metrics]
    exact fun x h => h

theorem logged_subset_run {M : Type} (ident : M → String) :
    ∀ (ops : List (Op M)) (st : QState M),
      st.logged_metrics ⊆ (run ident st ops).logged_metrics := by
  intro ops
  induction ops with
  | nil => intro st; exact fun x h => h
  | cons op ops ih =>
    intro st
    exact fun x hx => ih (step ident st op) (logged_subset_step ident st op hx)

end MetricsQueueSingleton

/-!
Embedding of `MetricsDispatchWorkerThread` and `MetricsDispatcher`.  A worker
is modelled by its `_halt_event` flag; `halt()` sets it.  The dispatcher state
is its `_num_workers`, `_workers` list and `_dispatching` flag; the engine is
only used for debug logging and thread construction, so it does not appear.
The authenticated-user probe `get_authenticated_user()` is an external
collaborator and enters `start` as a boolean.
-/

structure MetricsDispatchWorkerThread where
  halt_event : Bool
deriving DecidableEq

namespace MetricsDispatchWorkerThread

/-- Worker will wait this long between metrics dispatch attempts. -/
def DISPATCH_INTERVAL : Int := 5

/-- Worker will dispatch this many metrics at a time, or all if <= 0. -/
def DISPATCH_BATCH_SIZE : Int := 10

/-- A freshly constructed worker: `Event()` starts cleared. -/
def init : MetricsDispatchWorkerThread := ⟨false⟩

/-- Embedding of `halt()`: `self._halt_event.set()`. -/
def halt (w : MetricsDispatchWorkerThread) : MetricsDispatchWorkerThread :=
  { w with halt_event := true }

end MetricsDispatchWorkerThread

structure MetricsDispatcher where
  num_workers : Nat
  workers : List MetricsDispatchWorkerThread
  dispatching : Bool
deriving DecidableEq

namespace MetricsDispatcher

/-- Embedding of `MetricsDispatcher.__init__(engine, num_workers=1)`. -/
def init (num_workers : Nat) : MetricsDispatcher :=
  { num_workers := num_workers, workers := [], dispatching := false }

/-- Embedding of `MetricsDispatcher.start()`: return unchanged when already
dispatching; return unchanged when `get_authenticated_user()` is falsy
(`authenticated = false`); otherwise append `num_workers` fresh started
workers and set the dispatching flag. -/
def start (d : MetricsDispatcher) (authenticated : Bool) : MetricsDispatcher :=
  if d.dispatching then
    d
  else if ¬ authenticated then
    d
  else
    { d with
      workers :=
        d.workers ++ List.replicate d.num_workers MetricsDispatchWorkerThread.init
      dispatching := true }

/-- Embedding of `MetricsDispatcher.stop()`: `halt()` every worker in the
list, mark dispatching false, clear the list.  The second component returns
the workers the loop halted (the thread objects survive the list being
cleared; the dispatcher merely drops its references). -/
def stop (d : MetricsDispatcher) :
    MetricsDispatcher × List MetricsDispatchWorkerThread :=
  ({ d with dispatching := false, workers := [] },
   d.workers.map MetricsDispatchWorkerThread.halt)

end MetricsDispatcher

/-!
Embedding of the `EventMetric` producer API.  Python values that can be
passed as the `properties` argument are modelled by `PyVal`, with Python's
truthiness (`if properties:`) and the `type(properties) is dict` check made
explicit.  A raised `TypeError` is an `Except.error`.
-/

inductive PyVal where
  | none
  | bool (b : Bool)
  | int (n : Int)
  | str (s : String)
  | dict (items : List (String × PyVal))
  | list (items : List PyVal)

namespace PyVal

/-- Python truthiness of a `PyVal`: `None`, `False`, `0`, `""` and empty
containers are falsy. -/
def truthy : PyVal → Bool
  | .none => false
  | .bool b => b
  | .int n => n != 0
  | .str s => s != ""
  | .dict [] => false
  | .dict (_ :: _) => true
  | .list [] => false
  | .list (_ :: _) => true

/-- Python's `properties is None`. -/
def isNone : PyVal → Bool
  | .none => true
  | _ => false

/-- Python's `type(properties) is dict`. -/
def isDict : PyVal → Bool
  | .dict _ => true
  | _ => false

end PyVal

/-- Python dict item assignment `d[k] = v` on an association list: replace
the value of an existing key, or append the new key at the end. -/
def dictSet (d : List (String × PyVal)) (k : String) (v : PyVal) :
    List (String × PyVal) :=
  if d.any fun p => p.1 == k then
    d.map fun p => if p.1 == k then (k, v) else p
  else
    d ++ [(k, v)]

/-- The `data` dictionary carried by an `EventMetric`: `event_group`,
`event_name` and the `event_property` dictionary. -/
structure EventMetric where
  event_group : String
  event_name : String
  event_property : List (String × PyVal)

namespace EventMetric

/-- Embedding of `EventMetric.__init__(group, name, properties=None)`: the
base data holds `str(group)`, `str(name)` and an empty property dict (the
arguments arrive as strings here, so `str` is the identity).  When
`properties` is truthy, a non-dict raises `TypeError`, and a dict is copied
key by key through `_add_event_property`.  A falsy `properties` (None, but
also `0`, `""`, `False`, empty containers) skips both the check and the
copy. -/
def init (group name : String) (properties : PyVal) :
    Except String EventMetric :=
  if properties.truthy then
    match properties with
    | PyVal.dict items =>
      Except.ok
        { event_group := group
          event_name := name
          event_property := items.foldl (fun acc kv => dictSet acc kv.1 kv.2) [] }
    | _ =>
      Except.error "TypeError: The properties parameter must be None or a dictionary"
  else
    Except.ok { event_group := group, event_name := name, event_property := [] }

/-- Embedding of `EventMetric.__repr__`: `"%s:%s" % (event_group, event_name)`.
The `event_property` dict does not appear. -/
def repr (e : EventMetric) : String :=
  e.event_group ++ ":" ++ e.event_name

theorem init_ok_group_name (group name : String) (properties : PyVal)
    (e : EventMetric) (h : init group name properties = Except.ok e) :
    e.event_group = group ∧ e.event_name = name := by
  unfold init at h
  split at h
  · split at h
    · cases h
      exact ⟨rfl, rfl⟩
    · cases h
  · cases h
    exact ⟨rfl, rfl⟩

end EventMetric

/-- The dynamic argument handed to `log_event_metric`: either an actual
`EventMetric` instance or any other Python value. -/
inductive MetricArg where
  | event (e : EventMetric)
  | nonEvent (v : PyVal)

/-- Embedding of the module-level `log_event_metric(metric_event, log_once)`:
raise `TypeError` unless the argument is an `EventMetric` instance, else
enqueue it on the singleton queue under the `repr` identity. -/
def log_event_metric (metric_event : MetricArg) (log_once : Bool)
    (st : QState EventMetric) : Except String (QState EventMetric) :=
  match metric_event with
  | MetricArg.nonEvent _ =>
    Except.error
      "TypeError: The metric_event parameter must be an instance of the EventMetric class"
  | MetricArg.event e =>
    Except.ok (MetricsQueueSingleton.log EventMetric.repr st e log_once)

/-!
Claim theorems.
-/

/-- C1: for every queue state and metrics `a`, `b` with equal identity
strings, after `a` has been enqueued with any dedupe flag, a later enqueue of
`b` with `log_once = true` is dropped (the state, hence the queue, is
unchanged), while a later enqueue with `log_once = false` appends `b` to the
tail despite the duplicate identity and (re)records the identity as seen. -/
theorem C1_dedupe_iff {M : Type} (ident : M → String) (st : QState M)
    (a b : M) (flagA : Bool) (h : ident a = ident b) :
    MetricsQueueSingleton.log ident
        (MetricsQueueSingleton.log ident st a flagA) b true
      = MetricsQueueSingleton.log ident st a flagA ∧
    (MetricsQueueSingleton.log ident
        (MetricsQueueSingleton.log ident st a flagA) b false).queue
      = (MetricsQueueSingleton.log ident st a flagA).queue ++ [b] ∧
    ident b ∈ (MetricsQueueSingleton.log ident
        (MetricsQueueSingleton.log ident st a flagA) b false).logged_metrics := by
  have hmem : ident b ∈
      (MetricsQueueSingleton.log ident st a flagA).logged_metrics := by
    rw [← h]
    exact MetricsQueueSingleton.ident_mem_log ident st a flagA
  refine ⟨MetricsQueueSingleton.log_of_seen ident _ b hmem, ?_, ?_⟩
  · rw [MetricsQueueSingleton.log_not_once]
  · rw [MetricsQueueSingleton.log_not_once]
    exact List.mem_insert_self _ _

/-- Witness for C1 at a concrete input: metrics `1` and `2` under the
constant identity function, first enqueued with dedupe requested. -/
theorem C1_dedupe_iff_witness :
    (fun _ : Nat => "m") 1 = (fun _ : Nat => "m") 2 ∧
    (MetricsQueueSingleton.log (fun _ : Nat => "m")
        (MetricsQueueSingleton.log (fun _ : Nat => "m")
          (MetricsQueueSingleton.initState Nat) 1 true) 2 true
      = MetricsQueueSingleton.log (fun _ : Nat => "m")
          (MetricsQueueSingleton.initState Nat) 1 true ∧
    (MetricsQueueSingleton.log (fun _ : Nat => "m")
        (MetricsQueueSingleton.log (fun _ : Nat => "m")
          (MetricsQueueSingleton.initState Nat) 1 true) 2 false).queue
      = (MetricsQueueSingleton.log (fun _ : Nat => "m")
          (MetricsQueueSingleton.initState Nat) 1 true).queue ++ [2] ∧
    (fun _ : Nat => "m") 2 ∈ (MetricsQueueSingleton.log (fun _ : Nat => "m")
        (MetricsQueueSingleton.log (fun _ : Nat => "m")
          (MetricsQueueSingleton.initState Nat) 1 true) 2 false).logged_metrics) :=
  ⟨rfl, C1_dedupe_iff (fun _ : Nat => "m")
    (MetricsQueueSingleton.initState Nat) 1 2 true rfl⟩

/-- C2: starting from the fresh singleton state, a sequence of `log` calls
that either all pass `log_once = false` or whose metrics have pairwise
distinct identities, followed by an unbounded `get_metrics`, returns exactly
the logged metrics in enqueue order and leaves the queue empty. -/
theorem C2_fifo_drain {M : Type} (ident : M → String)
    (calls : List (M × Bool))
    (h : (∀ c ∈ calls, c.2 = false) ∨
      (calls.map fun c => ident c.1).Nodup) :
    (MetricsQueueSingleton.get_metrics
        (MetricsQueueSingleton.runLog ident
          (MetricsQueueSingleton.initState M) calls) Option.none).1
      = calls.map Prod.fst ∧
    (MetricsQueueSingleton.get_metrics
        (MetricsQueueSingleton.runLog ident
          (MetricsQueueSingleton.initState M) calls) Option.none).2.queue
      = [] := by
  rw [MetricsQueueSingleton.get_metrics_none]
  refine ⟨?_, rfl⟩
  cases h with
  | inl hf =>
    rw [MetricsQueueSingleton.runLog_queue_flags_false ident calls _ hf]
    rfl
  | inr hnd =>
    rw [MetricsQueueSingleton.runLog_queue_fresh ident calls _ hnd
      (fun c _ hmem => (List.not_mem_nil _) hmem)]
    rfl

/-- Witness for C2 at a concrete input: two metrics with distinct
identities are drained back in insertion order. -/
theorem C2_fifo_drain_witness :
    (List.map (fun c => toString c.1) [((1 : Nat), false), (2, true)]).Nodup ∧
    ((MetricsQueueSingleton.get_metrics
        (MetricsQueueSingleton.runLog toString
          (MetricsQueueSingleton.initState Nat)
          [((1 : Nat), false), (2, true)]) Option.none).1
      = [((1 : Nat), false), (2, true)].map Prod.fst ∧
    (MetricsQueueSingleton.get_metrics
        (MetricsQueueSingleton.runLog toString
          (MetricsQueueSingleton.initState Nat)
          [((1 : Nat), false), (2, true)]) Option.none).2.queue
      = []) :=
  ⟨by decide, C2_fifo_drain toString [((1 : Nat), false), (2, true)]
    (Or.inr (by decide))⟩

/-- C3 counterexample: `get_metrics(0)` on a one-element queue returns that
element, because Python's `not count` is true for `count = 0`, which the code
treats as "return all pending metrics"; so `drain(k)` does not return at most
`k` metrics at `k = 0`. -/
theorem C3_counterexample :
    (MetricsQueueSingleton.get_metrics (⟨[0], []⟩ : QState Nat)
        (Option.some 0)).1 = [0] ∧
    ¬ ((MetricsQueueSingleton.get_metrics (⟨[0], []⟩ : QState Nat)
        (Option.some 0)).1.length ≤ 0) := by
  constructor <;> decide

/-- C3 amended: for every queue state and every integer `k ≥ 1`,
`get_metrics (some k)` returns at most `k` metrics, and the returned prefix
followed by the remaining queue is exactly the original queue (remaining
metrics stay for later drains). -/
theorem C3_drain_bounded {M : Type} (st : QState M) (k : Int) (h : 1 ≤ k) :
    (MetricsQueueSingleton.get_metrics st (Option.some k)).1.length ≤ k.toNat ∧
    (MetricsQueueSingleton.get_metrics st (Option.some k)).1 ++
        (MetricsQueueSingleton.get_metrics st (Option.some k)).2.queue
      = st.queue := by
  simp only [MetricsQueueSingleton.get_metrics, MetricsQueueSingleton.clampCount]
  split
  · exact ⟨by simp, by simp⟩
  · refine ⟨?_, List.take_append_drop _ _⟩
    rw [List.length_take]
    split <;> omega

/-- Witness for C3 amended at a concrete input: `drain(2)` on a three-element
queue returns two metrics and leaves the third. -/
theorem C3_drain_bounded_witness :
    (1 : Int) ≤ 2 ∧
    ((MetricsQueueSingleton.get_metrics (⟨[5, 6, 7], []⟩ : QState Nat)
        (Option.some 2)).1.length ≤ (2 : Int).toNat ∧
    (MetricsQueueSingleton.get_metrics (⟨[5, 6, 7], []⟩ : QState Nat)
        (Option.some 2)).1 ++
        (MetricsQueueSingleton.get_metrics (⟨[5, 6, 7], []⟩ : QState Nat)
          (Option.some 2)).2.queue
      = (⟨[5, 6, 7], []⟩ : QState Nat).queue) :=
  ⟨by decide, C3_drain_bounded (⟨[5, 6, 7], []⟩ : QState Nat) 2 (by decide)⟩

/-- C4: `get_metrics` never raises: the fallible body `get_metricsE`, in
which every `popleft` may raise, always returns `Except.ok` of what the total
function computes (the bare `except` clause is unreachable), and on an empty
queue the result is the empty list with the state unchanged. -/
theorem C4_drain_never_raises {M : Type} (st : QState M) (count : Option Int) :
    MetricsQueueSingleton.get_metricsE st count
      = Except.ok (MetricsQueueSingleton.get_metrics st count) ∧
    (MetricsQueueSingleton.get_metrics
        (⟨[], st.logged_metrics⟩ : QState M) count).1 = [] ∧
    (MetricsQueueSingleton.get_metrics
        (⟨[], st.logged_metrics⟩ : QState M) count).2
      = (⟨[], st.logged_metrics⟩ : QState M) := by
  refine ⟨MetricsQueueSingleton.get_metricsE_ok st count, ?_, ?_⟩ <;>
    simp [MetricsQueueSingleton.get_metrics]

/-- C5: the seen-identity set is monotonic: no sequence of queue operations
(enqueues with either flag, drains with any count) removes an identity, so an
identity seen in the starting state is still seen afterwards and a
dedupe-requesting enqueue of a metric with that identity is a no-op. -/
theorem C5_seen_monotonic {M : Type} (ident : M → String) (st : QState M)
    (ops : List (MetricsQueueSingleton.Op M)) (s : String) (m : M)
    (h1 : s ∈ st.logged_metrics) (h2 : ident m = s) :
    s ∈ (MetricsQueueSingleton.run ident st ops).logged_metrics ∧
    MetricsQueueSingleton.log ident
        (MetricsQueueSingleton.run ident st ops) m true
      = MetricsQueueSingleton.run ident st ops := by
  have hmem := MetricsQueueSingleton.logged_subset_run ident ops st h1
  refine ⟨hmem, MetricsQueueSingleton.log_of_seen ident _ m ?_⟩
  rw [h2]
  exact hmem

/-- Witness for C5 at a concrete input: identity `"seen"` survives an
enqueue and a drain, and still suppresses a dedupe-requesting enqueue. -/
theorem C5_seen_monotonic_witness :
    "seen" ∈ (⟨[], ["seen"]⟩ : QState Nat).logged_metrics ∧
    (fun _ : Nat => "seen") 9 = "seen" ∧
    ("seen" ∈ (MetricsQueueSingleton.run (fun _ : Nat => "seen")
        (⟨[], ["seen"]⟩ : QState Nat)
        [MetricsQueueSingleton.Op.enqueue 3 false,
         MetricsQueueSingleton.Op.drain Option.none]).logged_metrics ∧
    MetricsQueueSingleton.log (fun _ : Nat => "seen")
        (MetricsQueueSingleton.run (fun _ : Nat => "seen")
          (⟨[], ["seen"]⟩ : QState Nat)
          [MetricsQueueSingleton.Op.enqueue 3 false,
           MetricsQueueSingleton.Op.drain Option.none]) 9 true
      = MetricsQueueSingleton.run (fun _ : Nat => "seen")
          (⟨[], ["seen"]⟩ : QState Nat)
          [MetricsQueueSingleton.Op.enqueue 3 false,
           MetricsQueueSingleton.Op.drain Option.none]) :=
  ⟨by decide, rfl, C5_seen_monotonic (fun _ : Nat => "seen")
    (⟨[], ["seen"]⟩ : QState Nat)
    [MetricsQueueSingleton.Op.enqueue 3 false,
     MetricsQueueSingleton.Op.drain Option.none] "seen" 9 (by decide) rfl⟩

/-- C6: calling `start` on an already dispatching dispatcher is a no-op:
the state is unchanged, so no workers are created, the worker list and its
length are unchanged, and the dispatching flag remains true. -/
theorem C6_start_noop_when_dispatching (d : MetricsDispatcher)
    (authenticated : Bool) (h : d.dispatching = true) :
    MetricsDispatcher.start d authenticated = d ∧
    (MetricsDispatcher.start d authenticated).workers = d.workers ∧
    (MetricsDispatcher.start d authenticated).workers.length
      = d.workers.length ∧
    (MetricsDispatcher.start d authenticated).dispatching = true := by
  have he : MetricsDispatcher.start d authenticated = d := by
    unfold MetricsDispatcher.start
    rw [if_pos h]
  exact ⟨he, by rw [he], by rw [he], by rw [he, h]⟩

/-- Witness for C6 at a concrete input: a dispatching dispatcher with one
worker is untouched by a second `start`. -/
theorem C6_start_noop_when_dispatching_witness :
    (MetricsDispatcher.mk 1 [MetricsDispatchWorkerThread.init] true).dispatching
      = true ∧
    (MetricsDispatcher.start
        (MetricsDispatcher.mk 1 [MetricsDispatchWorkerThread.init] true) true
      = MetricsDispatcher.mk 1 [MetricsDispatchWorkerThread.init] true ∧
    (MetricsDispatcher.start
        (MetricsDispatcher.mk 1 [MetricsDispatchWorkerThread.init] true)
        true).workers
      = (MetricsDispatcher.mk 1 [MetricsDispatchWorkerThread.init] true).workers ∧
    (MetricsDispatcher.start
        (MetricsDispatcher.mk 1 [MetricsDispatchWorkerThread.init] true)
        true).workers.length
      = (MetricsDispatcher.mk 1
          [MetricsDispatchWorkerThread.init] true).workers.length ∧
    (MetricsDispatcher.start
        (MetricsDispatcher.mk 1 [MetricsDispatchWorkerThread.init] true)
        true).dispatching = true) :=
  ⟨rfl, C6_start_noop_when_dispatching
    (MetricsDispatcher.mk 1 [MetricsDispatchWorkerThread.init] true) true rfl⟩

/-- C7: on a non-dispatching dispatcher, when `get_authenticated_user()`
reports no session, `start` returns with the state unchanged: no workers are
created, the worker list is as before (so an empty list stays empty), and the
dispatching flag stays false. -/
theorem C7_start_noop_unauthenticated (d : MetricsDispatcher)
    (h : d.dispatching = false) :
    MetricsDispatcher.start d false = d ∧
    (MetricsDispatcher.start d false).dispatching = false ∧
    (MetricsDispatcher.start d false).workers = d.workers := by
  have he : MetricsDispatcher.start d false = d := by
    unfold MetricsDispatcher.start
    rw [if_neg (by simp [h]), if_pos (by simp)]
  exact ⟨he, by rw [he, h], by rw [he]⟩

/-- Witness for C7 at a concrete input: a freshly initialized dispatcher is
untouched by an unauthenticated `start`. -/
theorem C7_start_noop_unauthenticated_witness :
    (MetricsDispatcher.init 1).dispatching = false ∧
    (MetricsDispatcher.start (MetricsDispatcher.init 1) false
      = MetricsDispatcher.init 1 ∧
    (MetricsDispatcher.start (MetricsDispatcher.init 1) false).dispatching
      = false ∧
    (MetricsDispatcher.start (MetricsDispatcher.init 1) false).workers
      = (MetricsDispatcher.init 1).workers) :=
  ⟨rfl, C7_start_noop_unauthenticated (MetricsDispatcher.init 1) rfl⟩

/-- C8: `stop` on every dispatcher state, including one never started:
afterwards the dispatching flag is false, the worker list is empty, and every
worker that was in the list has had `halt()` called on it (its halt event is
set). -/
theorem C8_stop_safe (d : MetricsDispatcher) :
    (MetricsDispatcher.stop d).1.dispatching = false ∧
    (MetricsDispatcher.stop d).1.workers = [] ∧
    (MetricsDispatcher.stop d).2
      = d.workers.map MetricsDispatchWorkerThread.halt ∧
    ((MetricsDispatcher.stop d).2.all fun w => w.halt_event) = true := by
  refine ⟨rfl, rfl, rfl, ?_⟩
  simp [MetricsDispatcher.stop, MetricsDispatchWorkerThread.halt]

/-- C9 counterexample: `EventMetric.__init__` with `properties = 0`, a value
that is neither `None` nor a dictionary, raises no `TypeError`: Python's
`if properties:` guard is false for falsy values, so the type check is
skipped and construction succeeds. -/
theorem C9_counterexample :
    PyVal.isNone (PyVal.int 0) = false ∧
    PyVal.isDict (PyVal.int 0) = false ∧
    EventMetric.init "App" "Test" (PyVal.int 0)
      = Except.ok (EventMetric.mk "App" "Test" []) :=
  ⟨rfl, rfl, rfl⟩

/-- C9 amended: `log_event_metric` raises `TypeError` exactly on a
non-`EventMetric` argument (leaving the queue state untouched) and otherwise
enqueues; `EventMetric.__init__` raises `TypeError` exactly when `properties`
is truthy and not a dictionary, while falsy values (including `None`, `0`,
empty containers) and dictionaries are accepted without raising. -/
theorem C9_typeerror_boundary (v : PyVal) (log_once : Bool)
    (st : QState EventMetric) (e : EventMetric) (g n : String) (p q : PyVal)
    (items : List (String × PyVal))
    (hp1 : p.truthy = true) (hp2 : p.isDict = false) (hq : q.truthy = false) :
    log_event_metric (MetricArg.nonEvent v) log_once st
      = Except.error
        "TypeError: The metric_event parameter must be an instance of the EventMetric class" ∧
    log_event_metric (MetricArg.event e) log_once st
      = Except.ok (MetricsQueueSingleton.log EventMetric.repr st e log_once) ∧
    EventMetric.init g n p
      = Except.error
        "TypeError: The properties parameter must be None or a dictionary" ∧
    EventMetric.init g n q = Except.ok (EventMetric.mk g n []) ∧
    EventMetric.init g n (PyVal.dict items)
      = Except.ok (EventMetric.mk g n
          (items.foldl (fun acc kv => dictSet acc kv.1 kv.2) [])) := by
  refine ⟨rfl, rfl, ?_, ?_, ?_⟩
  · unfold EventMetric.init
    rw [if_pos hp1]
    cases p with
    | dict items => simp [PyVal.isDict] at hp2
    | none => rfl
    | bool b => rfl
    | int m => rfl
    | str s => rfl
    | list l => rfl
  · unfold EventMetric.init
    rw [if_neg (by simp [hq])]
  · cases items with
    | nil => rfl
    | cons kv tl => rfl

/-- Witness for C9 amended at concrete inputs: a non-empty list is truthy
and not a dict (raises), `0` is falsy (accepted), and a one-entry dict is
accepted and copied. -/
theorem C9_typeerror_boundary_witness :
    PyVal.truthy (PyVal.list [PyVal.int 1]) = true ∧
    PyVal.isDict (PyVal.list [PyVal.int 1]) = false ∧
    PyVal.truthy (PyVal.int 0) = false ∧
    (log_event_metric (MetricArg.nonEvent (PyVal.str "x")) false
        (MetricsQueueSingleton.initState EventMetric)
      = Except.error
        "TypeError: The metric_event parameter must be an instance of the EventMetric class" ∧
    log_event_metric (MetricArg.event (EventMetric.mk "G" "N" [])) false
        (MetricsQueueSingleton.initState EventMetric)
      = Except.ok (MetricsQueueSingleton.log EventMetric.repr
          (MetricsQueueSingleton.initState EventMetric)
          (EventMetric.mk "G" "N" []) false) ∧
    EventMetric.init "G" "N" (PyVal.list [PyVal.int 1])
      = Except.error
        "TypeError: The properties parameter must be None or a dictionary" ∧
    EventMetric.init "G" "N" (PyVal.int 0)
      = Except.ok (EventMetric.mk "G" "N" []) ∧
    EventMetric.init "G" "N" (PyVal.dict [("k", PyVal.int 2)])
      = Except.ok (EventMetric.mk "G" "N"
          ([("k", PyVal.int 2)].foldl (fun acc kv => dictSet acc kv.1 kv.2) []))) :=
  ⟨rfl, rfl, rfl, C9_typeerror_boundary (PyVal.str "x") false
    (MetricsQueueSingleton.initState EventMetric) (EventMetric.mk "G" "N" [])
    "G" "N" (PyVal.list [PyVal.int 1]) (PyVal.int 0) [("k", PyVal.int 2)]
    rfl rfl rfl⟩

/-- C10: the identity string of an `EventMetric` depends only on its group
and name: two metrics constructed with the same group and name but any
properties arguments have equal `repr` strings, and after the first is
enqueued (with any flag), enqueuing the second with `log_once = true` is a
no-op. -/
theorem C10_identity_ignores_properties (g n : String) (p1 p2 : PyVal)
    (e1 e2 : EventMetric) (st : QState EventMetric) (log_once : Bool)
    (h1 : EventMetric.init g n p1 = Except.ok e1)
    (h2 : EventMetric.init g n p2 = Except.ok e2) :
    EventMetric.repr e1 = EventMetric.repr e2 ∧
    MetricsQueueSingleton.log EventMetric.repr
        (MetricsQueueSingleton.log EventMetric.repr st e1 log_once) e2 true
      = MetricsQueueSingleton.log EventMetric.repr st e1 log_once := by
  obtain ⟨hg1, hn1⟩ := EventMetric.init_ok_group_name g n p1 e1 h1
  obtain ⟨hg2, hn2⟩ := EventMetric.init_ok_group_name g n p2 e2 h2
  have hr : EventMetric.repr e1 = EventMetric.repr e2 := by
    unfold EventMetric.repr
    rw [hg1, hn1, hg2, hn2]
  refine ⟨hr, MetricsQueueSingleton.log_of_seen EventMetric.repr _ e2 ?_⟩
  rw [← hr]
  exact MetricsQueueSingleton.ident_mem_log EventMetric.repr st e1 log_once

/-- Witness for C10 at concrete inputs: same group and name with a one-entry
dict and with `None` give equal identities, and the second enqueue with
dedupe is dropped. -/
theorem C10_identity_ignores_properties_witness :
    EventMetric.init "App" "Login" (PyVal.dict [("k", PyVal.int 1)])
      = Except.ok (EventMetric.mk "App" "Login" [("k", PyVal.int 1)]) ∧
    EventMetric.init "App" "Login" PyVal.none
      = Except.ok (EventMetric.mk "App" "Login" []) ∧
    (EventMetric.repr (EventMetric.mk "App" "Login" [("k", PyVal.int 1)])
      = EventMetric.repr (EventMetric.mk "App" "Login" []) ∧
    MetricsQueueSingleton.log EventMetric.repr
        (MetricsQueueSingleton.log EventMetric.repr
          (MetricsQueueSingleton.initState EventMetric)
          (EventMetric.mk "App" "Login" [("k", PyVal.int 1)]) false)
        (EventMetric.mk "App" "Login" []) true
      = MetricsQueueSingleton.log EventMetric.repr
          (MetricsQueueSingleton.initState EventMetric)
          (EventMetric.mk "App" "Login" [("k", PyVal.int 1)]) false) :=
  ⟨rfl, rfl, C10_identity_ignores_properties "App" "Login"
    (PyVal.dict [("k", PyVal.int 1)]) PyVal.none
    (EventMetric.mk "App" "Login" [("k", PyVal.int 1)])
    (EventMetric.mk "App" "Login" [])
    (MetricsQueueSingleton.initState EventMetric) false rfl rfl⟩
